import Mathlib

/-
Verification of the mavlink-to-lattice telemetry bridge.

The development shallowly embeds the three Python modules
(`telemetry_stream.py`, `lattice_publisher.py`, `main.py`):

* numeric telemetry fields become exact rationals (ℚ);
* quaternion components become elements of ℚ adjoin √2 (`Q2` below), so the
  cos(π/4) = sin(π/4) = √2/2 entries of the fixed NED→ENU rotation are exact;
* Python float special values (None / NaN / ±Inf) for the altitude fields
  become the inductive `FVal` / `Option FVal`;
* the asyncio loops become per-iteration step functions and, for the
  connection-epoch claims, a small trace semantics over an explicit state.
-/

/-- Elements of ℚ adjoin √2, represented as `a + b·√2` with `a b : ℚ`.
Used so that the quaternion of scipy's `R.from_euler('xyz', [pi, 0, pi/2])`,
whose components are 0, ±1 and ±√2/2, is representable exactly. -/
structure Q2 where
  a : ℚ
  b : ℚ
deriving DecidableEq, Repr

namespace Q2

theorem ext2 : ∀ {x y : Q2}, x.a = y.a → x.b = y.b → x = y
  | ⟨_, _⟩, ⟨_, _⟩, rfl, rfl => rfl

def zero : Q2 := ⟨0, 0⟩

def one : Q2 := ⟨1, 0⟩

def add (x y : Q2) : Q2 := ⟨x.a + y.a, x.b + y.b⟩

def neg (x : Q2) : Q2 := ⟨-x.a, -x.b⟩

def mul (x y : Q2) : Q2 := ⟨x.a * y.a + 2 * (x.b * y.b), x.a * y.b + x.b * y.a⟩

instance : Zero Q2 := ⟨zero⟩
instance : One Q2 := ⟨one⟩
instance : Add Q2 := ⟨add⟩
instance : Neg Q2 := ⟨neg⟩
instance : Mul Q2 := ⟨mul⟩

@[simp] theorem zero_a : (0 : Q2).a = 0 := rfl
@[simp] theorem zero_b : (0 : Q2).b = 0 := rfl
@[simp] theorem one_a : (1 : Q2).a = 1 := rfl
@[simp] theorem one_b : (1 : Q2).b = 0 := rfl
@[simp] theorem add_a (x y : Q2) : (x + y).a = x.a + y.a := rfl
@[simp] theorem add_b (x y : Q2) : (x + y).b = x.b + y.b := rfl
@[simp] theorem neg_a (x : Q2) : (-x).a = -x.a := rfl
@[simp] theorem neg_b (x : Q2) : (-x).b = -x.b := rfl
@[simp] theorem mul_a (x y : Q2) : (x * y).a = x.a * y.a + 2 * (x.b * y.b) := rfl
@[simp] theorem mul_b (x y : Q2) : (x * y).b = x.a * y.b + x.b * y.a := rfl

instance : CommRing Q2 where
  nsmul := nsmulRec
  zsmul := zsmulRec
  add_assoc := by intro x y z; apply ext2 <;> simp <;> ring
  zero_add := by intro x; apply ext2 <;> simp
  add_zero := by intro x; apply ext2 <;> simp
  add_comm := by intro x y; apply ext2 <;> simp <;> ring
  neg_add_cancel := by intro x; apply ext2 <;> simp
  left_distrib := by intro x y z; apply ext2 <;> simp <;> ring
  right_distrib := by intro x y z; apply ext2 <;> simp <;> ring
  zero_mul := by intro x; apply ext2 <;> simp
  mul_zero := by intro x; apply ext2 <;> simp
  mul_assoc := by intro x y z; apply ext2 <;> simp <;> ring
  one_mul := by intro x; apply ext2 <;> simp
  mul_one := by intro x; apply ext2 <;> simp
  mul_comm := by intro x y; apply ext2 <;> simp <;> ring

/-- The exact value √2/2 = cos(π/4) = sin(π/4), i.e. `0 + (1/2)·√2`. -/
def sqrtHalf : Q2 := ⟨0, 1/2⟩

end Q2

/-- Quaternions with components in `Q2`, written scalar-first
`(re, imI, imJ, imK)` = `(w, x, y, z)`. scipy's `Rotation` stores the same
quaternion scalar-last; the conversion is at `quatOfXYZW` below. -/
structure Quat where
  re : Q2
  imI : Q2
  imJ : Q2
  imK : Q2
deriving DecidableEq, Repr

namespace Quat

theorem ext4 : ∀ {p q : Quat},
    p.re = q.re → p.imI = q.imI → p.imJ = q.imJ → p.imK = q.imK → p = q
  | ⟨_, _, _, _⟩, ⟨_, _, _, _⟩, rfl, rfl, rfl, rfl => rfl

/-- Hamilton product, the composition law scipy uses for `Rotation`
multiplication: `p * q` is the rotation that applies `q` first, then `p`. -/
def mul (p q : Quat) : Quat :=
  ⟨p.re * q.re - p.imI * q.imI - p.imJ * q.imJ - p.imK * q.imK,
   p.re * q.imI + p.imI * q.re + p.imJ * q.imK - p.imK * q.imJ,
   p.re * q.imJ - p.imI * q.imK + p.imJ * q.re + p.imK * q.imI,
   p.re * q.imK + p.imI * q.imJ - p.imJ * q.imI + p.imK * q.re⟩

instance : Mul Quat := ⟨mul⟩

@[simp] theorem mul_re (p q : Quat) :
    (p * q).re = p.re * q.re - p.imI * q.imI - p.imJ * q.imJ - p.imK * q.imK := rfl
@[simp] theorem mul_imI (p q : Quat) :
    (p * q).imI = p.re * q.imI + p.imI * q.re + p.imJ * q.imK - p.imK * q.imJ := rfl
@[simp] theorem mul_imJ (p q : Quat) :
    (p * q).imJ = p.re * q.imJ - p.imI * q.imK + p.imJ * q.re + p.imK * q.imI := rfl
@[simp] theorem mul_imK (p q : Quat) :
    (p * q).imK = p.re * q.imK + p.imI * q.imJ - p.imJ * q.imI + p.imK * q.re := rfl

/-- Squared Euclidean norm of a quaternion. -/
def normSq (q : Quat) : Q2 :=
  q.re * q.re + q.imI * q.imI + q.imJ * q.imJ + q.imK * q.imK

end Quat

/-- Embedding of `R.from_euler('xyz', [np.pi, 0, np.pi/2])`, factor 1 of 3:
the quaternion of the 180° rotation about X, `(cos(π/2), sin(π/2), 0, 0)`. -/
def qRotX180 : Quat := ⟨0, 1, 0, 0⟩

/-- Embedding of `R.from_euler('xyz', [np.pi, 0, np.pi/2])`, factor 2 of 3:
the quaternion of the 0° rotation about Y, the identity quaternion. -/
def qRotY0 : Quat := ⟨1, 0, 0, 0⟩

/-- Embedding of `R.from_euler('xyz', [np.pi, 0, np.pi/2])`, factor 3 of 3:
the quaternion of the 90° rotation about Z, `(cos(π/4), 0, 0, sin(π/4))`,
with cos(π/4) = sin(π/4) = √2/2 represented exactly in `Q2`. -/
def qRotZ90 : Quat := ⟨Q2.sqrtHalf, 0, 0, Q2.sqrtHalf⟩

/-- Embedding of `r_ned_to_enu = R.from_euler('xyz', [np.pi, 0, np.pi / 2])`
(`lattice_publisher.py` line 89). A lowercase axis sequence is extrinsic in
scipy, so the rotation is `Rz(π/2) ∘ Ry(0) ∘ Rx(π)` and its quaternion is the
product `qz * qy * qx`. -/
def r_ned_to_enu : Quat := qRotZ90 * qRotY0 * qRotX180


/-
Embedding of the telemetry sample types, shaped after the fields of the
MAVSDK samples that the code actually reads. Finite float fields are ℚ;
the altitude fields, which the code explicitly tests for None / NaN / Inf,
are `Option FVal` / `FVal`.
-/

/-- Value of a Python float field: either a finite value or one of the
non-finite specials `nan`, `inf`, `-inf`. -/
inductive FVal where
  | fin (x : ℚ)
  | nan
  | inf
  | ninf
deriving DecidableEq, Repr

/-- Fields of `telemetry.position()` samples read by the code. -/
structure TelePosition where
  latitude_deg : ℚ
  longitude_deg : ℚ
  absolute_altitude_m : ℚ
deriving DecidableEq, Repr

/-- Fields of the `velocity` member of `telemetry.position_velocity_ned()`. -/
structure Vec3Ned where
  north_m_s : ℚ
  east_m_s : ℚ
  down_m_s : ℚ
deriving DecidableEq, Repr

/-- A `telemetry.position_velocity_ned()` sample; the code reads
`velocity.velocity.<component>`. -/
structure VelocityNedSample where
  velocity : Vec3Ned
deriving DecidableEq, Repr

/-- Fields of `telemetry.altitude()` samples read by the code. -/
structure AltitudeSample where
  altitude_terrain_m : Option FVal
  altitude_local_m : FVal
deriving DecidableEq, Repr

/-- The quaternion member `odometry.q`, with MAVSDK field names
`w, x, y, z`; components in `Q2` so the ENU conversion is exact. -/
structure QuatWXYZ where
  w : Q2
  x : Q2
  y : Q2
  z : Q2
deriving DecidableEq, Repr

/-- A `telemetry.odometry()` sample; the code reads `odometry.q`. -/
structure OdometrySample where
  q : QuatWXYZ
deriving DecidableEq, Repr

/-- The shape of the module-level dict `telemetry_data`
(`telemetry_stream.py` lines 13-18): one nullable slot per telemetry field.
It is generic in the four payload types so the same embedding serves both
the concrete samples and the epoch-provenance analysis of the supervisor. -/
structure TelemetryDict (P V A O : Type) where
  position : Option P
  velocity : Option V
  altitude : Option A
  odometry : Option O
deriving DecidableEq, Repr

/-- The dict literal at `telemetry_stream.py` lines 13-18: every slot `None`.
It is evaluated once, at module import; nothing in the module ever rebinds
or clears it. -/
def telemetry_data_init (P V A O : Type) : TelemetryDict P V A O :=
  ⟨none, none, none, none⟩

/-- The concrete snapshot type used by the running program. -/
abbrev TelemetryData :=
  TelemetryDict TelePosition VelocityNedSample AltitudeSample OdometrySample

/-- Body of `consume_position` (`telemetry_stream.py` lines 80-84) for one
arriving sample: the write is guarded by
`if conn.is_connected and position.latitude_deg:`, where the second conjunct
is Python float truthiness, i.e. `latitude_deg != 0`. -/
def consume_position (is_connected : Bool) (p : TelePosition)
    (td : TelemetryData) : TelemetryData :=
  if is_connected ∧ p.latitude_deg ≠ 0 then { td with position := some p }
  else td

/-- Body of `consume_velocity` (lines 87-91) for one arriving sample,
guarded by `if conn.is_connected:` only. -/
def consume_velocity (is_connected : Bool) (v : VelocityNedSample)
    (td : TelemetryData) : TelemetryData :=
  if is_connected then { td with velocity := some v } else td

/-- Body of `consume_altitude` (lines 94-98) for one arriving sample. -/
def consume_altitude (is_connected : Bool) (a : AltitudeSample)
    (td : TelemetryData) : TelemetryData :=
  if is_connected then { td with altitude := some a } else td

/-- Body of `consume_odometry` (lines 101-105) for one arriving sample. -/
def consume_odometry (is_connected : Bool) (o : OdometrySample)
    (td : TelemetryData) : TelemetryData :=
  if is_connected then { td with odometry := some o } else td

/-- Python's `all(telemetry_data.values())`: every slot is non-`None`
(the sample objects themselves are plain objects, hence always truthy). -/
def allValues {P V A O : Type} (td : TelemetryDict P V A O) : Bool :=
  td.position.isSome && td.velocity.isSome && td.altitude.isSome && td.odometry.isSome

/-- The tuple `(telemetry_data["position"], ..., telemetry_data["odometry"])`
built at `telemetry_stream.py` lines 112-118, defined when all four slots
are populated. -/
def snapshotTuple {P V A O : Type} (td : TelemetryDict P V A O) :
    Option (P × V × A × O) :=
  match td.position, td.velocity, td.altitude, td.odometry with
  | some p, some v, some a, some o => some (p, v, a, o)
  | _, _, _, _ => none

/-- One tick of `publish_at_interval` (`telemetry_stream.py` lines 108-120):
`if conn.is_connected and all(telemetry_data.values()): await queue.put(tuple)`.
The queue is the `asyncio.Queue()` built at `main.py` line 6, which has no
`maxsize`, so `put` appends immediately and never blocks. -/
def publish_at_interval_tick {P V A O : Type} (is_connected : Bool)
    (td : TelemetryDict P V A O) (queue : List (P × V × A × O)) :
    List (P × V × A × O) :=
  match is_connected, snapshotTuple td with
  | true, some t => queue ++ [t]
  | _, _ => queue

/-- The `maxsize` of the handoff queue as constructed at `main.py` line 6:
`asyncio.Queue()` — no capacity argument, i.e. unbounded. -/
def mainQueueMaxsize : Option Nat := none

/-
Connection-epoch provenance model of `stream_position`
(`telemetry_stream.py` lines 20-78) together with its consumer tasks and
`publish_at_interval`. Payloads are abstracted to the number of the
connection epoch in which the sample was produced, so a queued tuple
records exactly which epoch each of its four fields came from; the dict
and queue operations are the generic embeddings above, instantiated at
`Nat` payloads. Sample events model samples whose write guard passes
(connected, and for position a nonzero latitude).
-/

/-- Scheduler events relevant to the epoch analysis. -/
inductive Ev where
  | connEstablished
  | connLost
  | samplePos
  | sampleVel
  | sampleAlt
  | sampleOdo
  | samplerTick
deriving DecidableEq, Repr

/-- State of the streaming side: the connection flag held by the
`ConnectionManager`, the current epoch count (number of successful
connection establishments so far), the module-level `telemetry_data` dict
with each slot tagged by the epoch that last wrote it, and the handoff
queue contents. -/
structure StreamState where
  is_connected : Bool
  epoch : Nat
  td : TelemetryDict Nat Nat Nat Nat
  queue : List (Nat × Nat × Nat × Nat)
deriving DecidableEq, Repr

/-- State at process start: disconnected, no epoch yet, `telemetry_data`
as created once at module import (lines 13-18), empty queue. -/
def initStreamState : StreamState :=
  ⟨false, 0, telemetry_data_init Nat Nat Nat Nat, []⟩

/-- One event step. `connEstablished` is `handle_connection` (lines 29-40)
setting `conn.is_connected = True` for a new epoch; `connLost` is the
teardown path (the `finally` block, lines 69-78), which sets
`conn.is_connected = False` and cancels the epoch's tasks — nothing on
either path ever touches the module-level `telemetry_data`, so the dict is
carried over unchanged. Sample events are one loop body of the
corresponding consumer; `samplerTick` is one iteration of
`publish_at_interval`. -/
def streamStep (s : StreamState) (e : Ev) : StreamState :=
  match e with
  | .connEstablished => { s with is_connected := true, epoch := s.epoch + 1 }
  | .connLost => { s with is_connected := false }
  | .samplePos =>
      if s.is_connected then { s with td := { s.td with position := some s.epoch } } else s
  | .sampleVel =>
      if s.is_connected then { s with td := { s.td with velocity := some s.epoch } } else s
  | .sampleAlt =>
      if s.is_connected then { s with td := { s.td with altitude := some s.epoch } } else s
  | .sampleOdo =>
      if s.is_connected then { s with td := { s.td with odometry := some s.epoch } } else s
  | .samplerTick =>
      { s with queue := publish_at_interval_tick s.is_connected s.td s.queue }

/-- Run a trace of events from a state. -/
def runTrace (evs : List Ev) (s : StreamState) : StreamState :=
  evs.foldl streamStep s

/-- A reconnection trace: epoch 1 connects and fills all four fields, the
connection is lost, epoch 2 connects, and the sampler ticks once before any
epoch-2 sample has arrived. -/
def reconnectTrace : List Ev :=
  [.connEstablished, .samplePos, .sampleVel, .sampleAlt, .sampleOdo,
   .connLost, .connEstablished, .samplerTick]

/-
Per-iteration model of the supervisor loop of `stream_position`
(`telemetry_stream.py` lines 24-78): `while True: try: ... except
Exception as e: print(...) finally: conn.is_connected = False; for task in
tasks: task.cancel(); await asyncio.gather(*tasks, ...); await
asyncio.sleep(retry_delay)`.

The local variable `tasks` is assigned only inside the `try` block (lines
54-61), after `connect` and the rate-setting calls have succeeded. The
`finally` block reads `tasks` unconditionally, so its value at that point
depends on whether any earlier point of this call already assigned it.
-/

/-- Outcome of the transport-level `connect` / handshake phase. -/
inductive ConnectOutcome where
  | ok
  | raises
deriving DecidableEq, Repr

/-- How one iteration of the supervisor `while True` loop ends. -/
inductive IterEnd where
  /-- the `finally` block completed and `await asyncio.sleep(retry_delay)`
  ran: control returns to the top of `while True`. -/
  | loopAgain
  /-- an exception escaped the iteration, and hence (there being no further
  handler in `stream_position`) the supervisor loop itself. -/
  | escaped (exn : String)
deriving DecidableEq, Repr

/-- One iteration of the supervisor loop. `tasksBound` says whether the
local variable `tasks` already has a value when the iteration starts
(false on the first iteration; true once any iteration has reached the
assignment at lines 54-61). If `connect` raises, the `except` clause
handles and logs it, but the `finally` block then evaluates
`for task in tasks:`; when `tasks` is still unassigned this raises
`UnboundLocalError`, which propagates out of `stream_position`. If
`connect` succeeds, `tasks` is assigned, the iteration waits out the
active session, and the `finally` teardown completes normally. -/
def stream_position_iteration (tasksBound : Bool) (connect : ConnectOutcome) :
    IterEnd :=
  match connect with
  | .ok => .loopAgain
  | .raises => if tasksBound then .loopAgain else .escaped "UnboundLocalError"

/-
Embedding of `start_publisher` (`lattice_publisher.py` lines 55-160).
Wall-clock instants are rationals counting seconds; `timedelta(minutes=5)`
is 5 * 60 seconds.
-/

/-- Line 59: `expiry_time = current_time + timedelta(minutes=5)`, where
`current_time = datetime.now(...)` was read at the top of the iteration,
before the (potentially long-blocking) `await queue.get()`. -/
def expiry_time_of (current_time : ℚ) : ℚ :=
  current_time + 5 * 60

/-- The expiry actually placed in the published update, line 107:
`expiry_time=expiry_time + timedelta(minutes=5)`. -/
def published_expiry_time (current_time : ℚ) : ℚ :=
  expiry_time_of current_time + 5 * 60

/-- Lines 72-78: `agl = altitude.altitude_terrain_m; if agl is None or
math.isnan(agl) or math.isinf(agl): <warn>; agl_altitude =
altitude.altitude_local_m; else: agl_altitude = agl`. Returns the chosen
altitude and whether the fallback warning was logged. `math.isinf` is true
for both infinities, so the condition holds exactly when the terrain
altitude is not a finite float. -/
def selectAgl (altitude : AltitudeSample) : FVal × Bool :=
  match altitude.altitude_terrain_m with
  | some (.fin x) => (.fin x, false)
  | _ => (altitude.altitude_local_m, true)

/-- Lines 81-90: the list `ned_q = [odometry.q.x, odometry.q.y,
odometry.q.z, odometry.q.w]` is scipy's scalar-last order, so
`R.from_quat(ned_q)` is the quaternion with scalar part `w`.
`from_quat` also normalizes its input, which on the unit quaternions this
development reasons about is the identity and is therefore omitted. -/
def quatOfOdometry (q : QuatWXYZ) : Quat :=
  ⟨q.w, q.x, q.y, q.z⟩

/-- Line 90: `r_enu = r_ned_to_enu * r_ned` — scipy rotation composition,
i.e. the Hamilton product with the fixed rotation on the left. -/
def r_enu_of (o : OdometrySample) : Quat :=
  r_ned_to_enu * quatOfOdometry o.q

/-- The `position=Position(...)` record of the publish call, lines 117-122. -/
structure EntityPositionOut where
  latitude_degrees : ℚ
  longitude_degrees : ℚ
  altitude_hae_meters : ℚ
  altitude_agl_meters : FVal
deriving DecidableEq, Repr

/-- The `velocity_enu=Enu(...)` record of the publish call, lines 123-127. -/
structure EnuOut where
  e : ℚ
  n : ℚ
  u : ℚ
deriving DecidableEq, Repr

/-- The `location=Location(...)` record of the publish call, lines 116-129. -/
structure LocationOut where
  position : EntityPositionOut
  velocity_enu : EnuOut
  attitude_enu : Quat
deriving DecidableEq, Repr

/-- The outbound entity update, restricted to the fields the verified
properties are about (identity, expiry, location); the remaining arguments
of `client.entities.publish_entity` (ontology, mil_view, provenance,
health, task catalog, timestamps other than expiry) are constants or
pass-throughs no claim mentions. -/
structure EntityUpdateOut where
  entity_id : String
  expiry_time : ℚ
  location : LocationOut
deriving DecidableEq, Repr

def DRONE_ID : String := "drone-1"

/-- The update record assembled by the `client.entities.publish_entity(...)`
call (lines 102-150) from one dequeued tuple, with `current_time` the
wall-clock value read at the top of the iteration (line 58). -/
def buildEntityUpdate (current_time : ℚ) (p : TelePosition)
    (v : VelocityNedSample) (a : AltitudeSample) (o : OdometrySample) :
    EntityUpdateOut :=
  { entity_id := DRONE_ID
    expiry_time := published_expiry_time current_time
    location :=
      { position :=
          { latitude_degrees := p.latitude_deg
            longitude_degrees := p.longitude_deg
            altitude_hae_meters := p.absolute_altitude_m
            altitude_agl_meters := (selectAgl a).1 }
        velocity_enu :=
          { e := v.velocity.east_m_s
            n := v.velocity.north_m_s
            u := -v.velocity.down_m_s }
        attitude_enu := r_enu_of o } }

/-- Result of one call to the external sink
(`client.entities.publish_entity`): it returns, or raises. -/
inductive SinkOutcome where
  | ok
  | raises (msg : String)
deriving DecidableEq, Repr

/-- Log lines emitted by one publisher iteration, in order. -/
inductive LogLine where
  | warnAglFallback
  | infoPublishing
  | errorPublishFailed (msg : String)
  | infoCancelled
deriving DecidableEq, Repr

/-- How one iteration of the publisher `while True` loop ends. -/
inductive LoopControl where
  /-- control reaches the top of `while True` again (via the trailing
  `await asyncio.sleep(1.0)` on success, or via `continue` in the
  publish-failure handler). -/
  | continueNext
  /-- the `break` in the `asyncio.CancelledError` handler (line 153). -/
  | breakLoop
deriving DecidableEq, Repr

/-- Observable behaviour of one publisher iteration: every payload passed
to the sink (in call order), every log line, and how the iteration ends. -/
structure IterationResult where
  sinkPayloads : List EntityUpdateOut
  logs : List LogLine
  control : LoopControl
deriving DecidableEq, Repr

/-- One iteration of the `while True` loop of `start_publisher`
(`lattice_publisher.py` lines 56-160). `cancelled` models the iteration
being interrupted by task cancellation (handled at lines 152-154 with a
`break`). Otherwise `current_time` is read (line 58), a tuple is dequeued
(line 60; its components are non-`None` by construction of the producer,
so the defensive `None in [...]` re-check at lines 64-67 passes), the AGL
fallback is decided (lines 72-78), the update is built and handed to the
sink exactly once (lines 101-150), and a raising sink is handled at lines
151-153 by logging the error and `continue` — so the iteration never
re-invokes the sink, and the next iteration starts with a fresh
`queue.get()`. -/
def publisher_iteration (cancelled : Bool) (current_time : ℚ)
    (sample : TelePosition × VelocityNedSample × AltitudeSample × OdometrySample)
    (sink : EntityUpdateOut → SinkOutcome) : IterationResult :=
  if cancelled then ⟨[], [.infoCancelled], .breakLoop⟩
  else
    match sample with
    | (p, v, a, o) =>
      let upd := buildEntityUpdate current_time p v a o
      let logs := (if (selectAgl a).2 then [LogLine.warnAglFallback] else [])
        ++ [LogLine.infoPublishing]
      match sink upd with
      | .ok => ⟨[upd], logs, .continueNext⟩
      | .raises m => ⟨[upd], logs ++ [.errorPublishFailed m], .continueNext⟩

/-
Concrete sample fixtures used by witnesses and counterexamples.
-/

def pSample : TelePosition := ⟨47, 8, 500⟩

def pLatZero : TelePosition := ⟨0, 8, 500⟩

def vSample : VelocityNedSample := ⟨⟨1, 2, 3⟩⟩

def aSample : AltitudeSample := ⟨some (.fin 30), .fin 25⟩

def aNanTerrain : AltitudeSample := ⟨some .nan, .fin 25⟩

def oSample : OdometrySample := ⟨⟨1, 0, 0, 0⟩⟩

def tdFull : TelemetryData :=
  ⟨some pSample, some vSample, some aSample, some oSample⟩

def tdNoPosition : TelemetryData :=
  ⟨none, some vSample, some aSample, some oSample⟩

/-- Stated from the spec's wording, for comparison with `r_ned_to_enu`:
the fixed NED→ENU axis rotation described as "composing a 180° rotation
about X with a 90° rotation about Z", in that order — i.e. the rotation
that applies the X half-turn first and the Z quarter-turn second, whose
quaternion is the Hamilton product `qRotZ90 * qRotX180`. -/
def specFixedNedToEnu : Quat := qRotZ90 * qRotX180

/-
Theorems. General lemmas about the embedded operations come first, then
one theorem per verified claim (with its witness where the claim's theorem
carries a hypothesis).
-/

theorem Quat.normSq_mul (p q : Quat) :
    Quat.normSq (p * q) = Quat.normSq p * Quat.normSq q := by
  simp [Quat.normSq]; ring

theorem r_ned_to_enu_eval : r_ned_to_enu = ⟨0, Q2.sqrtHalf, Q2.sqrtHalf, 0⟩ := by
  apply Quat.ext4 <;> apply Q2.ext2 <;>
    norm_num [r_ned_to_enu, qRotZ90, qRotY0, qRotX180, Q2.sqrtHalf]

theorem normSq_r_ned_to_enu : r_ned_to_enu.normSq = 1 := by
  apply Q2.ext2 <;>
    norm_num [Quat.normSq, r_ned_to_enu, qRotZ90, qRotY0, qRotX180, Q2.sqrtHalf]

theorem snapshotTuple_isSome_iff {P V A O : Type} (td : TelemetryDict P V A O) :
    (snapshotTuple td).isSome = allValues td := by
  rcases td with ⟨p, v, a, o⟩
  cases p <;> cases v <;> cases a <;> cases o <;> rfl

theorem r_ned_to_enu_eq_spec : r_ned_to_enu = specFixedNedToEnu := by
  apply Quat.ext4 <;> apply Q2.ext2 <;>
    norm_num [r_ned_to_enu, specFixedNedToEnu, qRotZ90, qRotY0, qRotX180, Q2.sqrtHalf]

/-- C1 counterexample: in the trace where epoch 1 connects and fills all
four telemetry fields, the connection drops, and epoch 2 connects, the very
first sampler tick of epoch 2 (before any epoch-2 sample has arrived)
enqueues a tuple all four of whose fields were produced during epoch 1 —
the module-level `telemetry_data` is never discarded or recreated, so a
prior epoch's values are enqueued after reconnection. -/
theorem c1_prior_epoch_sample_enqueued_after_reconnect :
    (runTrace reconnectTrace initStreamState).epoch = 2 ∧
    (runTrace (reconnectTrace.take 7) initStreamState).queue = [] ∧
    (runTrace reconnectTrace initStreamState).queue = [(1, 1, 1, 1)] := by
  decide

/-- C1 amended: the snapshot is not discarded on reconnection. Neither the
teardown path (connection lost) nor the establishment of a new connection
epoch changes the module-level `telemetry_data`; a new epoch only
increments the epoch count, so values written during a prior epoch remain
in place (and, by `c1_prior_epoch_sample_enqueued_after_reconnect`, can be
enqueued) until fresh samples overwrite them. -/
theorem c1_snapshot_retained_across_epochs (s : StreamState) :
    (streamStep s .connLost).td = s.td ∧
    (streamStep s .connEstablished).td = s.td ∧
    (streamStep s .connEstablished).epoch = s.epoch + 1 :=
  ⟨rfl, rfl, rfl⟩

/-- C2: the published expiry is not "publish time + configured horizon,
evaluated at the publish instant". With the iteration's wall-clock capture
at time 0, the update carries expiry 600 s (the 5-minute `timedelta` is
added twice: line 59 and again line 107). If the publish call happens just
1 s after capture (a single queue wait), the margin is 599 s — neither the
5-minute nor a 10-minute horizon; and if `queue.get()` blocks 601 s (a link
outage longer than 10 minutes), the expiry is strictly in the past at the
publish instant. -/
theorem c2_expiry_not_exact_horizon_at_publish :
    (buildEntityUpdate 0 pSample vSample aSample oSample).expiry_time = 600 ∧
    (buildEntityUpdate 0 pSample vSample aSample oSample).expiry_time - (0 + 1) ≠ 5 * 60 ∧
    (buildEntityUpdate 0 pSample vSample aSample oSample).expiry_time - (0 + 1) ≠ 10 * 60 ∧
    (buildEntityUpdate 0 pSample vSample aSample oSample).expiry_time < 0 + 601 := by
  norm_num [buildEntityUpdate, published_expiry_time, expiry_time_of]

/-- C3: a connect failure on the first iteration of the supervisor loop
escapes `stream_position` — the `finally` block reads the local `tasks`,
unassigned at that point, raising `UnboundLocalError` — so a terminal
failure state is reachable from a connect error; only once some earlier
iteration has bound `tasks` does a connect failure lead back to the retry
path. -/
theorem c3_first_connect_failure_escapes_supervisor :
    stream_position_iteration false .raises = .escaped "UnboundLocalError" ∧
    stream_position_iteration true .raises = .loopAgain :=
  ⟨rfl, rfl⟩

/-- C4: the handoff queue the program actually wires up (`asyncio.Queue()`
at `main.py` line 6) has no `maxsize`, and its `put` appends
unconditionally: after 11 sampler ticks with a complete snapshot and no
dequeue, the queue holds 11 samples — more than the capacity of 10 that
the bounded variant in `lattice_publisher.py` documents — so no fixed
configured capacity bounds the queue. -/
theorem c4_queue_exceeds_documented_capacity :
    mainQueueMaxsize = none ∧
    ((List.range 11).foldl (fun q _ => publish_at_interval_tick true tdFull q)
      []).length = 11 :=
  ⟨rfl, rfl⟩

/-- C5: a sampler tick enqueues nothing when any of the four snapshot
fields is `None`, and whenever a tick does enqueue, all four fields were
populated (`all(telemetry_data.values())` at line 110). -/
theorem c5_incomplete_snapshot_never_enqueued (c : Bool) (td : TelemetryData)
    (q : List (TelePosition × VelocityNedSample × AltitudeSample × OdometrySample)) :
    (td.position = none ∨ td.velocity = none ∨ td.altitude = none ∨
        td.odometry = none →
      publish_at_interval_tick c td q = q) ∧
    (publish_at_interval_tick c td q ≠ q → allValues td = true) := by
  rcases td with ⟨p, v, a, o⟩
  constructor
  · intro h
    cases c <;> cases p <;> cases v <;> cases a <;> cases o <;>
      simp_all [publish_at_interval_tick, snapshotTuple]
  · intro h
    cases c <;> cases p <;> cases v <;> cases a <;> cases o <;>
      simp_all [publish_at_interval_tick, snapshotTuple, allValues]

/-- C5 witness: a concrete tick with the position slot `None` enqueues
nothing. -/
theorem c5_witness : publish_at_interval_tick true tdNoPosition [] = [] :=
  (c5_incomplete_snapshot_never_enqueued true tdNoPosition []).1 (Or.inl rfl)

/-- C6: the ENU velocity placed in the published update is exactly
`(e, n, u) = (east, north, −down)` of the NED sample. -/
theorem c6_velocity_ned_to_enu_exact (t : ℚ) (p : TelePosition)
    (v : VelocityNedSample) (a : AltitudeSample) (o : OdometrySample) :
    (buildEntityUpdate t p v a o).location.velocity_enu =
      ⟨v.velocity.east_m_s, v.velocity.north_m_s, -v.velocity.down_m_s⟩ :=
  rfl

/-- C7: for a unit NED attitude quaternion, the published ENU attitude
equals the fixed NED→ENU rotation — Rx(180°) composed then Rz(90°),
exactly the spec's description, `specFixedNedToEnu` — applied to the NED
quaternion (renormalization is the identity here, the result being already
a unit quaternion), and that result has squared norm 1. -/
theorem c7_attitude_fixed_remap_preserves_unit (t : ℚ) (p : TelePosition)
    (v : VelocityNedSample) (a : AltitudeSample) (o : OdometrySample)
    (h : (quatOfOdometry o.q).normSq = 1) :
    (buildEntityUpdate t p v a o).location.attitude_enu =
      specFixedNedToEnu * quatOfOdometry o.q ∧
    ((buildEntityUpdate t p v a o).location.attitude_enu).normSq = 1 := by
  constructor
  · show r_enu_of o = _
    rw [r_enu_of, r_ned_to_enu_eq_spec]
  · show (r_enu_of o).normSq = 1
    rw [r_enu_of, Quat.normSq_mul, normSq_r_ned_to_enu, h, one_mul]

/-- C7 witness: the identity NED attitude is a unit quaternion and its
published ENU image is the fixed rotation itself, with squared norm 1. -/
theorem c7_witness :
    (buildEntityUpdate 0 pSample vSample aSample oSample).location.attitude_enu =
      specFixedNedToEnu * quatOfOdometry oSample.q ∧
    ((buildEntityUpdate 0 pSample vSample aSample oSample).location.attitude_enu).normSq = 1 :=
  c7_attitude_fixed_remap_preserves_unit 0 pSample vSample aSample oSample
    (by apply Q2.ext2 <;> norm_num [Quat.normSq, quatOfOdometry, oSample])

/-- C8: when the sink raises, the iteration invokes the sink exactly once
(with the built payload — there is no re-invocation of the identical failed
payload), logs the failure, and ends by returning to the top of the loop
rather than terminating. -/
theorem c8_sink_failure_logged_and_loop_continues (t : ℚ) (p : TelePosition)
    (v : VelocityNedSample) (a : AltitudeSample) (o : OdometrySample)
    (m : String) :
    (publisher_iteration false t (p, v, a, o) (fun _ => .raises m)).control =
      .continueNext ∧
    (publisher_iteration false t (p, v, a, o) (fun _ => .raises m)).sinkPayloads =
      [buildEntityUpdate t p v a o] ∧
    LogLine.errorPublishFailed m ∈
      (publisher_iteration false t (p, v, a, o) (fun _ => .raises m)).logs := by
  refine ⟨rfl, rfl, ?_⟩
  cases hw : (selectAgl a).2 <;> simp [publisher_iteration, hw]

/-- C9: with a finite local altitude, if the terrain-relative altitude of
the dequeued sample is missing (`None`) or non-finite (NaN or ±Inf), the
built update's AGL field equals the local altitude and the fallback
warning appears in the iteration's log; otherwise the AGL field equals the
terrain-relative altitude. -/
theorem c9_agl_fallback_on_invalid_terrain (t : ℚ) (p : TelePosition)
    (v : VelocityNedSample) (a : AltitudeSample) (o : OdometrySample)
    (sink : EntityUpdateOut → SinkOutcome) (y : ℚ)
    (_hl : a.altitude_local_m = .fin y) :
    (a.altitude_terrain_m = none ∨ a.altitude_terrain_m = some .nan ∨
        a.altitude_terrain_m = some .inf ∨ a.altitude_terrain_m = some .ninf →
      (buildEntityUpdate t p v a o).location.position.altitude_agl_meters =
          a.altitude_local_m ∧
        LogLine.warnAglFallback ∈
          (publisher_iteration false t (p, v, a, o) sink).logs) ∧
    (∀ x : ℚ, a.altitude_terrain_m = some (.fin x) →
      (buildEntityUpdate t p v a o).location.position.altitude_agl_meters =
        .fin x) := by
  constructor
  · intro h
    have hsel : selectAgl a = (a.altitude_local_m, true) := by
      rcases h with h | h | h | h <;> simp [selectAgl, h]
    constructor
    · simp [buildEntityUpdate, hsel]
    · cases hs : sink (buildEntityUpdate t p v a o) <;>
        simp [publisher_iteration, buildEntityUpdate, hsel, hs] <;>
        simp [buildEntityUpdate, hsel] at hs <;> simp [hs]
  · intro x hx
    simp [buildEntityUpdate, selectAgl, hx]

/-- C9 witness: a sample whose terrain altitude is NaN and whose local
altitude is the finite value 25 publishes AGL = local altitude, and the
fallback warning is logged. -/
theorem c9_witness :
    (buildEntityUpdate 0 pSample vSample aNanTerrain oSample).location.position.altitude_agl_meters =
      aNanTerrain.altitude_local_m ∧
    LogLine.warnAglFallback ∈
      (publisher_iteration false 0 (pSample, vSample, aNanTerrain, oSample)
        (fun _ => SinkOutcome.ok)).logs :=
  (c9_agl_fallback_on_invalid_terrain 0 pSample vSample aNanTerrain oSample
    (fun _ => SinkOutcome.ok) 25 rfl).1 (Or.inr (Or.inl rfl))

/-- C10: a position sample whose latitude is exactly 0 is dropped by
`consume_position` — the guard `if conn.is_connected and
position.latitude_deg:` treats 0.0 as falsy — so the snapshot is unchanged,
and while its position slot is still `None` the snapshot cannot be
complete. -/
theorem c10_zero_latitude_sample_never_stored (c : Bool) (p : TelePosition)
    (td : TelemetryData) (h : p.latitude_deg = 0) :
    consume_position c p td = td ∧
    (td.position = none → allValues (consume_position c p td) = false) := by
  have hcond : ¬(c = true ∧ p.latitude_deg ≠ 0) := by simp [h]
  have heq : consume_position c p td = td := by
    simp [consume_position, h]
  refine ⟨heq, fun hp => ?_⟩
  rw [heq]
  simp [allValues, hp]

/-- C10 witness: with the snapshot's position slot `None`, a concrete
latitude-0 sample leaves the snapshot unchanged and incomplete. -/
theorem c10_witness :
    consume_position true pLatZero tdNoPosition = tdNoPosition ∧
    allValues (consume_position true pLatZero tdNoPosition) = false :=
  ⟨(c10_zero_latitude_sample_never_stored true pLatZero tdNoPosition rfl).1,
   (c10_zero_latitude_sample_never_stored true pLatZero tdNoPosition rfl).2 rfl⟩
